/-
Verification of the `smd` repository's `cmd/refframes` utilities.

The repository is Python glue around the SPICE toolkit (spiceypy).  We give a
shallow embedding: real-number quantities are modelled as rationals, numpy
3-vectors as `Fin 3 → ℚ`, 6-component state vectors as a pair of 3-vectors,
and the external toolkit (pxform, spkezr, str2et, j2000, spd) as an abstract
structure of functions, since the repository's own logic never inspects the
numbers the toolkit returns.  Python string operations are modelled on the
character list of a Lean `String` (the frame names in question are ASCII).
-/
import Mathlib

deriving instance DecidableEq for Except

namespace SMD

/-! ### Vectors and matrices (numpy 3-vectors, 3x3 DCMs, 6-state) -/

/-- A numpy 3-vector (position or velocity), components as rationals. -/
abbrev Vec3 : Type := Fin 3 → ℚ

/-- A 3x3 direction-cosine matrix, as returned by `spice.pxform`. -/
abbrev Mat3 : Type := Fin 3 → Fin 3 → ℚ

/-- `m.dot(v)` for a 3x3 matrix and a 3-vector (numpy matrix-vector product). -/
def mulVec (m : Mat3) (v : Vec3) : Vec3 :=
  fun i => m i 0 * v 0 + m i 1 * v 1 + m i 2 * v 2

/-- 3x3 matrix product. -/
def matMul (a b : Mat3) : Mat3 :=
  fun i j => a i 0 * b 0 j + a i 1 * b 1 j + a i 2 * b 2 j

/-- The 3x3 identity matrix. -/
def idMat3 : Mat3 := fun i j => if i = j then 1 else 0

/-- A 6-component state vector `[R, V]`: position components `state[0..2]`
and velocity components `state[3..5]`. -/
structure State6 where
  r : Vec3
  v : Vec3
deriving DecidableEq

/-- numpy addition of two 6-component states (`stateRotd + origin`). -/
instance : Add State6 := ⟨fun a b => ⟨a.r + b.r, a.v + b.v⟩⟩

/-- The six components of a state, in order, as a Python list. -/
def stateList (s : State6) : List ℚ :=
  [s.r 0, s.r 1, s.r 2, s.v 0, s.v 1, s.v 2]

/-! ### Python string operations, on the character list of a `String` -/

/-- Python `s.startswith(p)`. -/
def pyStartsWith (s p : String) : Bool := p.data.isPrefixOf s.data

/-- Python `s.endswith(p)`. -/
def pyEndsWith (s p : String) : Bool := p.data.isSuffixOf s.data

/-- Python `s[n:]`. -/
def pyDrop (s : String) (n : ℕ) : String := ⟨s.data.drop n⟩

/-- Python `s.lower()` (the names in play are ASCII). -/
def pyLower (s : String) : String := ⟨s.data.map Char.toLower⟩

/-- Python `s[1:-1]`: drop the first and the last character. -/
def pySlice1m1 (s : String) : String := ⟨(s.data.drop 1).dropLast⟩

/-- Python `s.strip()`: remove leading and trailing whitespace. -/
def pyStrip (s : String) : String :=
  ⟨((s.data.dropWhile Char.isWhitespace).reverse.dropWhile Char.isWhitespace).reverse⟩

/-- Python `s.split(sep)` for a one-character separator, on character
lists: splitting never collapses and the empty string yields `[[]]`. -/
def splitChar (sep : Char) : List Char → List (List Char)
  | [] => [[]]
  | c :: rest =>
    if c = sep then [] :: splitChar sep rest
    else
      match splitChar sep rest with
      | [] => [[c]]
      | h :: t => (c :: h) :: t

/-- Python `s.split(',')`. -/
def pySplitComma (s : String) : List String :=
  (splitChar ',' s.data).map (fun l => ⟨l⟩)

/-- Python `sep.join(l)`. -/
def pyJoin (sep : String) : List String → String
  | [] => ""
  | [a] => a
  | a :: rest => a ++ sep ++ pyJoin sep rest

/-! ### The abstract SPICE toolkit -/

/-- The external toolkit routines the scripts delegate to.  The repository
treats their outputs as opaque numbers, so we model them as unconstrained
functions.  `spkezr target et frame abcorr observer` is the state component
(`[0]`) of `spice.spkezr`. -/
structure SpiceKit where
  pxform : String → String → ℚ → Mat3
  spkezr : String → ℚ → String → String → String → State6
  str2et : String → ℚ
  j2000 : ℚ
  spd : ℚ

/-- An epoch argument: Python passes either a float (ephemeris time) or a
date-time string. -/
def Epoch : Type := ℚ ⊕ String

/-- `if isinstance(dt, str): dt = spice.str2et(dt)` — resolve an epoch to
ephemeris time. -/
def resolveEt (S : SpiceKit) : Epoch → ℚ
  | .inl q => q
  | .inr s => S.str2et s

/-! ### chgframe.py -/

/-- The `mars` → `Mars_barycenter` substitution done inline in
`chgframe.ChgFrame` (both branches): only `mars`, case-insensitively, is
replaced, by the literal string `Mars_barycenter`. -/
def chgframeSubst (target : String) : String :=
  if pyLower target = "mars" then "Mars_barycenter" else target

/-- `chgframe.DCM`: direct call-through to `spice.pxform`. -/
def DCM (S : SpiceKit) (fromFrame toFrame : String) (dt : ℚ) : Mat3 :=
  S.pxform fromFrame toFrame dt

/-- `chgframe.ChgFrame(state, fromFrame, toFrame, dt)`.  Returns `none` when
the Python function falls off the end of its `if/elif` and returns `None`. -/
def ChgFrame (S : SpiceKit) (state : State6) (fromFrame toFrame : String)
    (dt : Epoch) : Option State6 :=
  let et := resolveEt S dt
  let dcm := DCM S fromFrame toFrame et
  let position := mulVec dcm state.r
  let velocity := mulVec dcm state.v
  let stateRotd : State6 := ⟨position, velocity⟩
  if pyStartsWith fromFrame "IAU_" then
    -- From planetocentric to heliocentric
    let target := chgframeSubst (pyDrop fromFrame 4)
    let origin := S.spkezr target et toFrame "None" "Sun"
    some (stateRotd + origin)
  else if pyEndsWith fromFrame "J2000" then
    -- From heliocentric to planetocentric
    let target := chgframeSubst (pyDrop toFrame 4)
    let origin := S.spkezr target et fromFrame "None" "Sun"
    some ⟨position - mulVec dcm origin.r, velocity - mulVec dcm origin.v⟩
  else
    none

/-! ### heliostate.py and utils.py: PlanetState -/

/-- The `mars` → `Mars_barycenter` substitution done inline in
`heliostate.PlanetState` (identical in text to the one in `chgframe`). -/
def heliostateSubst (planet : String) : String :=
  if pyLower planet = "mars" then "Mars_barycenter" else planet

/-- `utils.BARYCENTER_FRAMES`. -/
def BARYCENTER_FRAMES : List String :=
  ["mars", "jupiter", "saturn", "neptune", "uranus", "pluto"]

/-- The substitution done in `utils.PlanetState`: when the lowercased name is
in `BARYCENTER_FRAMES`, `'_barycenter'` is appended to the (case-preserved)
name; otherwise the name is unchanged. -/
def utilsSubst (planet : String) : String :=
  if pyLower planet ∈ BARYCENTER_FRAMES then planet ++ "_barycenter" else planet

/-- `heliostate.PlanetState(planet, epoch)`. -/
def PlanetStateHelio (S : SpiceKit) (planet : String) (epoch : Epoch) : State6 :=
  S.spkezr (heliostateSubst planet) (resolveEt S epoch) "ECLIPJ2000" "None" "Sun"

/-- `utils.PlanetState(planet, epoch)` (the one `horizon.py` imports). -/
def PlanetStateUtils (S : SpiceKit) (planet : String) (epoch : Epoch) : State6 :=
  S.spkezr (utilsSubst planet) (resolveEt S epoch) "ECLIPJ2000" "None" "Sun"

/-! ### Kernel loading

Each module keeps a module-level flag `__kernels_loaded__`, initially
`False`, and a loader that returns immediately when the flag is set and
otherwise furnishes the three kernel files.  `utils._load_kernels_` declares
`global __kernels_loaded__` and sets the flag to `True` after furnishing;
`chgframe.__load__kernels__` and `heliostate.__load__kernels__` read the flag
but never assign it.  A loader is modelled as a function from the flag value
to the new flag value and the list of kernel files furnished by that call. -/

/-- The three SPICE kernel files every loader furnishes (paths are the
file names under the module's `spicekernels/` directory). -/
def spiceKernels : List String := ["de430.bsp", "naif0012.tls", "pck00010.tpc"]

/-- `utils._load_kernels_`: furnishes the kernels and sets the flag. -/
def utilsLoadKernels (loaded : Bool) : Bool × List String :=
  if loaded then (loaded, []) else (true, spiceKernels)

/-- `chgframe.__load__kernels__` (textually identical in `heliostate.py`):
furnishes the kernels but leaves the flag unchanged — the function contains
no assignment to `__kernels_loaded__`. -/
def chgframeLoadKernels (loaded : Bool) : Bool × List String :=
  if loaded then (loaded, []) else (loaded, spiceKernels)

/-- Run `n` successive calls of a loader from a given flag value and collect
every kernel file furnished, in order. -/
def runLoads (load : Bool → Bool × List String) : ℕ → Bool → List String
  | 0, _ => []
  | n + 1, b => (load b).2 ++ runLoads load n (load b).1

/-! ### chgframe.py `__main__`: state-vector argument parsing -/

/-- The `--state` parsing in `chgframe.py`'s `__main__`: drop the first and
last characters, split on commas, strip and float each piece.  `pf` models
Python's `float` (assumed to succeed; the claim under study is the length
check). -/
def chgframeParseState (pf : String → ℚ) (stateArg : String) : List ℚ :=
  (pySplitComma (pySlice1m1 stateArg)).map (fun c => pf (pyStrip c))

/-- Build a `State6` from a six-element Python list (components 0..2 radial,
3..5 velocity). -/
def listToState6 (l : List ℚ) : State6 :=
  ⟨fun i => l.getD i 0, fun i => l.getD (i + 3) 0⟩

/-- The `__main__` body of `chgframe.py` after argument parsing: parse the
state, raise `ValueError` when it does not have six components, otherwise
convert the frame.  The epoch argument arrives as a string. -/
def chgframeMain (S : SpiceKit) (pf : String → ℚ)
    (stateArg toArg fromArg epochArg : String) : Except String (Option State6) :=
  let state := chgframeParseState pf stateArg
  if state.length ≠ 6 then
    .error "state vector must have six components"
  else
    .ok (ChgFrame S (listToState6 state) fromArg toArg (.inr epochArg))

/-! ### horizon.py: resolution parsing and the ephemeris loop -/

/-- Python exceptions raised by `horizon.py`'s argument handling.
`valueErrorUnknownUnit u` models `ValueError('unknown unit ' + u)` — the
message starts with `unknown unit `; `valueErrorBadIntLiteral c` models the
`ValueError` raised by `int()` on a non-digit — its message starts with
`invalid literal for int()`, not with `unknown unit `. -/
inductive PyErr where
  | valueErrorUnknownUnit (u : Char)
  | valueErrorBadIntLiteral (c : Char)
deriving DecidableEq

/-- The dict `{'d': 'days', 'm': 'minutes', 's': 'seconds'}`, as a lookup. -/
def resolutionUnits (u : Char) : Option String :=
  if u = 'd' then some "days"
  else if u = 'm' then some "minutes"
  else if u = 's' then some "seconds"
  else none

/-- Python `int(c)` on a single character (ASCII digits). -/
def pyIntChar (c : Char) : Except PyErr ℕ :=
  if c.isDigit then .ok (c.toNat - '0'.toNat) else .error (.valueErrorBadIntLiteral c)

/-- Python `s[0]` (first character; the model is used on nonempty strings,
where Python would not raise `IndexError`). -/
def pyFirstChar (s : String) : Char := s.data.headD ' '

/-- Python `s[-1]` (last character; the model is used on nonempty strings,
where Python would not raise `IndexError`). -/
def pyLastChar (s : String) : Char := s.data.getLastD ' '

/-- Lines 27–32 of `horizon.py`: take the last character of `--reso` as the
unit, raise `ValueError('unknown unit ' + unit)` when it is not a key of
`resolution_units`, then build the timedelta count from `int` of the FIRST
character only.  Python indexes `reso[-1]`/`reso[0]`; on the empty string it
would raise `IndexError`, so the model is faithful for nonempty input. -/
def horizonParseReso (reso : String) : Except PyErr (String × ℕ) :=
  match resolutionUnits (pyLastChar reso) with
  | none => .error (.valueErrorUnknownUnit (pyLastChar reso))
  | some uname =>
    match pyIntChar (pyFirstChar reso) with
    | .error e => .error e
    | .ok n => .ok (uname, n)

/-- Gregorian leap-year rule (what `datetime`/`dateutil` implement). -/
def isLeap (y : ℕ) : Bool := y % 4 = 0 && (y % 100 ≠ 0 || y % 400 = 0)

/-- Days from January 1 of `year` to January 1 of `year + 1`. -/
def daysInYear (year : ℕ) : ℕ := if isLeap year then 366 else 365

/-- Seconds from `start_date` (January 1 of `year`) to `end_date`
(January 1 of `year + 1`). -/
def horizonEndS (year : ℕ) : ℕ := daysInYear year * 86400

/-- `timedelta(**{unitName: n})` in seconds. -/
def stepSeconds (unitName : String) (n : ℕ) : ℕ :=
  n * (if unitName = "days" then 86400 else if unitName = "minutes" then 60 else 1)

/-- The `while start_date <= end_date` loop of `horizon.py`, with time
measured in seconds after `start_date`: emit the current time, then advance
by `step`.  Written with explicit fuel; `horizonSteps` supplies fuel
`endS + 1`, enough whenever `0 < step`. -/
def horizonLoopAux (step endS : ℕ) : ℕ → ℕ → List ℕ
  | 0, _ => []
  | fuel + 1, t => if t ≤ endS then t :: horizonLoopAux step endS fuel (t + step) else []

/-- The times (seconds after January 1 of the year) at which the loop body
of `horizon.py` runs. -/
def horizonSteps (step endS : ℕ) : List ℕ := horizonLoopAux step endS (endS + 1) 0

/-- The three `f.write` calls of one loop iteration, assembled: the Julian
date string, a comma, the timestamp string, a comma, the comma-joined state
components, and a newline.  `render` models Python `str` on a float and
`fmtDate` the `date_str` format expression at a given loop time. -/
def horizonRow (render : ℚ → String) (fmtDate : ℕ → String) (S : SpiceKit)
    (planet : String) (t : ℕ) : String :=
  let et := S.str2et (fmtDate t)
  let jde := S.j2000 + et / S.spd
  let st := PlanetStateUtils S planet (.inl et)
  render jde ++ "," ++ fmtDate t ++ "," ++ pyJoin "," ((stateList st).map render) ++ "\n"

/-- The rows written to the CSV file by a run of `horizon.py`, one per loop
iteration; the file content is their concatenation. -/
def horizonRows (render : ℚ → String) (fmtDate : ℕ → String) (S : SpiceKit)
    (planet : String) (step endS : ℕ) : List String :=
  (horizonSteps step endS).map (horizonRow render fmtDate S planet)

/-! ### Helper lemmas -/

lemma State6.add_r (a b : State6) : (a + b).r = a.r + b.r := rfl

lemma State6.add_v (a b : State6) : (a + b).v = a.v + b.v := rfl

lemma mulVec_add (m : Mat3) (a b : Vec3) : mulVec m (a + b) = mulVec m a + mulVec m b := by
  funext i
  simp only [mulVec, Pi.add_apply]
  ring

lemma mulVec_mulVec (a b : Mat3) (x : Vec3) :
    mulVec a (mulVec b x) = mulVec (matMul a b) x := by
  funext i
  simp only [mulVec, matMul]
  ring

lemma mulVec_id (x : Vec3) : mulVec idMat3 x = x := by
  funext i
  fin_cases i <;> simp [mulVec, idMat3, Fin.ext_iff]

/-- Everything the loop of `horizon.py` emits is at most `endS` and an exact
multiple of the step away from the loop's entry time. -/
lemma mem_horizonLoopAux {step endS : ℕ} :
    ∀ fuel t x, x ∈ horizonLoopAux step endS fuel t → x ≤ endS ∧ ∃ k, x = t + k * step := by
  intro fuel
  induction fuel with
  | zero => intro t x hx; simp [horizonLoopAux] at hx
  | succ f ih =>
    intro t x hx
    unfold horizonLoopAux at hx
    by_cases h : t ≤ endS
    · rw [if_pos h] at hx
      rcases List.mem_cons.mp hx with rfl | hx
      · exact ⟨h, 0, by ring⟩
      · obtain ⟨hle, k, hk⟩ := ih (t + step) x hx
        exact ⟨hle, k + 1, by rw [hk]; ring⟩
    · rw [if_neg h] at hx
      simp at hx

/-- With enough fuel, the loop reaches every multiple of the step that does
not exceed the bound. -/
lemma reach_horizonLoopAux {step endS : ℕ} :
    ∀ k fuel t, t + k * step ≤ endS → k + 1 ≤ fuel →
      t + k * step ∈ horizonLoopAux step endS fuel t := by
  intro k
  induction k with
  | zero =>
    intro fuel t hle hf
    obtain ⟨f, rfl⟩ : ∃ f, fuel = f + 1 := ⟨fuel - 1, by omega⟩
    simp only [Nat.zero_mul, Nat.add_zero] at hle ⊢
    unfold horizonLoopAux
    rw [if_pos hle]
    exact List.mem_cons_self _ _
  | succ k ih =>
    intro fuel t hle hf
    obtain ⟨f, rfl⟩ : ∃ f, fuel = f + 1 := ⟨fuel - 1, by omega⟩
    unfold horizonLoopAux
    have ht : t ≤ endS := le_trans (Nat.le_add_right _ _) hle
    rw [if_pos ht]
    have hrw : t + step + k * step = t + (k + 1) * step := by ring
    refine List.mem_cons_of_mem _ ?_
    have := ih f (t + step) (by omega) (by omega)
    rwa [hrw] at this

/-- The loop of `horizon.py` visits exactly the multiples of the step that do
not exceed the end date (for a positive step, which makes the default fuel
sufficient). -/
lemma mem_horizonSteps {step endS : ℕ} (hs : 0 < step) (x : ℕ) :
    x ∈ horizonSteps step endS ↔ x ≤ endS ∧ ∃ k, x = k * step := by
  constructor
  · intro h
    have := mem_horizonLoopAux (endS + 1) 0 x h
    simpa using this
  · rintro ⟨hle, k, rfl⟩
    have hk : k ≤ k * step := Nat.le_mul_of_pos_right k hs
    have := @reach_horizonLoopAux step endS k (endS + 1) 0 (by omega) (by omega)
    simpa using this

/-- If each incoming string is nonempty, a comma-join with eight pieces in a
fixed grouping equals the flat eight-way join.  (Shape of one CSV row of
`horizon.py`.) -/
lemma pyJoin_cons_cons (sep a b : String) (l : List String) (h : l ≠ []) :
    pyJoin sep (a :: b :: l) = a ++ sep ++ (b ++ sep ++ pyJoin sep l) := by
  cases l with
  | nil => exact absurd rfl h
  | cons c t => rfl

/-- A concrete toolkit used to instantiate the theorems: the DCM is the
identity matrix, ephemeris states and times are fixed values. -/
def sampleKit : SpiceKit where
  pxform := fun _ _ _ => idMat3
  spkezr := fun _ _ _ _ _ => ⟨fun i => (i : ℚ) + 1, fun i => (i : ℚ) + 4⟩
  str2et := fun _ => 7
  j2000 := 2451545
  spd := 86400

/-- A concrete state vector used to instantiate the theorems. -/
def sampleState : State6 := ⟨fun i => (i : ℚ) + 10, fun i => (i : ℚ) + 20⟩

lemma matMul_id_id : matMul idMat3 idMat3 = idMat3 := by
  funext i j
  fin_cases i <;> fin_cases j <;> simp [matMul, idMat3]

lemma resolutionUnits_none_iff (u : Char) :
    resolutionUnits u = none ↔ u ∉ (['d', 'm', 's'] : List Char) := by
  unfold resolutionUnits
  split_ifs with h1 h2 h3 <;> simp_all

/-- One CSV row of `horizon.py` (three consecutive writes) is the flat
comma-join of eight fields followed by a newline. -/
lemma horizonRow_join (render : ℚ → String) (fmtDate : ℕ → String) (S : SpiceKit)
    (planet : String) (t : ℕ) :
    horizonRow render fmtDate S planet t =
      pyJoin "," (render (S.j2000 + S.str2et (fmtDate t) / S.spd) :: fmtDate t ::
        (stateList (PlanetStateUtils S planet (.inl (S.str2et (fmtDate t))))).map render)
      ++ "\n" := by
  unfold horizonRow stateList
  simp [pyJoin, String.append_assoc]

/-! ### The claims -/

/-- C1: for every state, epoch and frame pair with `fromFrame` starting in
`IAU_`, `ChgFrame` returns the DCM from `fromFrame` to `toFrame` applied
separately to the position and velocity components, plus the Sun-relative
state of the body named by `fromFrame` without its `IAU_` prefix (`mars`
mapped, case-insensitively, to `Mars_barycenter`), queried in `toFrame`. -/
theorem chgFrame_planetocentric_to_heliocentric (S : SpiceKit) (state : State6)
    (fromFrame toFrame : String) (dt : Epoch)
    (h : pyStartsWith fromFrame "IAU_" = true) :
    ChgFrame S state fromFrame toFrame dt =
      some (State6.mk
          (mulVec (S.pxform fromFrame toFrame (resolveEt S dt)) state.r)
          (mulVec (S.pxform fromFrame toFrame (resolveEt S dt)) state.v)
        + S.spkezr (chgframeSubst (pyDrop fromFrame 4)) (resolveEt S dt)
            toFrame "None" "Sun") := by
  simp [ChgFrame, DCM, h]

/-- Witness for C1 at `IAU_Earth` → `EclipJ2000` on concrete data. -/
theorem chgFrame_planetocentric_to_heliocentric_witness :
    pyStartsWith "IAU_Earth" "IAU_" = true ∧
    ChgFrame sampleKit sampleState "IAU_Earth" "EclipJ2000" (.inl 0) =
      some (State6.mk
          (mulVec (sampleKit.pxform "IAU_Earth" "EclipJ2000"
            (resolveEt sampleKit (.inl 0))) sampleState.r)
          (mulVec (sampleKit.pxform "IAU_Earth" "EclipJ2000"
            (resolveEt sampleKit (.inl 0))) sampleState.v)
        + sampleKit.spkezr (chgframeSubst (pyDrop "IAU_Earth" 4))
            (resolveEt sampleKit (.inl 0)) "EclipJ2000" "None" "Sun") :=
  ⟨by decide, chgFrame_planetocentric_to_heliocentric sampleKit sampleState
    "IAU_Earth" "EclipJ2000" (.inl 0) (by decide)⟩

/-- C2: for every state, epoch and frame pair with `fromFrame` not starting
in `IAU_` but ending in `J2000`, `ChgFrame` returns the state whose position
is `dcm.dot(state[0..2]) - dcm.dot(origin[0..2])` and whose velocity is
`dcm.dot(state[3..5]) - dcm.dot(origin[3..5])`, where the origin is the
Sun-relative state of the body named by `toFrame` with its first four
characters removed (`mars` mapped to `Mars_barycenter`), queried in
`fromFrame`. -/
theorem chgFrame_heliocentric_to_planetocentric (S : SpiceKit) (state : State6)
    (fromFrame toFrame : String) (dt : Epoch)
    (h1 : pyStartsWith fromFrame "IAU_" = false)
    (h2 : pyEndsWith fromFrame "J2000" = true) :
    ChgFrame S state fromFrame toFrame dt =
      some (State6.mk
          (mulVec (S.pxform fromFrame toFrame (resolveEt S dt)) state.r
            - mulVec (S.pxform fromFrame toFrame (resolveEt S dt))
                (S.spkezr (chgframeSubst (pyDrop toFrame 4)) (resolveEt S dt)
                  fromFrame "None" "Sun").r)
          (mulVec (S.pxform fromFrame toFrame (resolveEt S dt)) state.v
            - mulVec (S.pxform fromFrame toFrame (resolveEt S dt))
                (S.spkezr (chgframeSubst (pyDrop toFrame 4)) (resolveEt S dt)
                  fromFrame "None" "Sun").v)) := by
  simp [ChgFrame, DCM, h1, h2]

/-- Witness for C2 at `EclipJ2000` → `IAU_Mars` on concrete data (also
exercising the `Mars_barycenter` substitution). -/
theorem chgFrame_heliocentric_to_planetocentric_witness :
    pyStartsWith "EclipJ2000" "IAU_" = false ∧
    pyEndsWith "EclipJ2000" "J2000" = true ∧
    ChgFrame sampleKit sampleState "EclipJ2000" "IAU_Mars" (.inl 0) =
      some (State6.mk
          (mulVec (sampleKit.pxform "EclipJ2000" "IAU_Mars"
              (resolveEt sampleKit (.inl 0))) sampleState.r
            - mulVec (sampleKit.pxform "EclipJ2000" "IAU_Mars"
                (resolveEt sampleKit (.inl 0)))
                (sampleKit.spkezr (chgframeSubst (pyDrop "IAU_Mars" 4))
                  (resolveEt sampleKit (.inl 0)) "EclipJ2000" "None" "Sun").r)
          (mulVec (sampleKit.pxform "EclipJ2000" "IAU_Mars"
              (resolveEt sampleKit (.inl 0))) sampleState.v
            - mulVec (sampleKit.pxform "EclipJ2000" "IAU_Mars"
                (resolveEt sampleKit (.inl 0)))
                (sampleKit.spkezr (chgframeSubst (pyDrop "IAU_Mars" 4))
                  (resolveEt sampleKit (.inl 0)) "EclipJ2000" "None" "Sun").v)) :=
  ⟨by decide, by decide, chgFrame_heliocentric_to_planetocentric sampleKit
    sampleState "EclipJ2000" "IAU_Mars" (.inl 0) (by decide) (by decide)⟩

/-- C3 (counterexample): `Jupiter` lowercases to a member of
`BARYCENTER_FRAMES`, yet the substitutions of `heliostate.PlanetState` and
`chgframe.ChgFrame` pass it through unchanged — not as a barycenter name —
refuting that every ephemeris call site applies the six-name barycenter
substitution list. -/
theorem barycenter_subst_not_uniform :
    pyLower "Jupiter" ∈ BARYCENTER_FRAMES ∧
    heliostateSubst "Jupiter" = "Jupiter" ∧
    chgframeSubst "Jupiter" = "Jupiter" ∧
    pyEndsWith (heliostateSubst "Jupiter") "_barycenter" = false := by
  decide

/-- C3 (amended): only `utils.PlanetState` applies the six-name list,
appending `_barycenter` to the case-preserved name; `chgframe.ChgFrame` and
`heliostate.PlanetState` substitute only `mars` (case-insensitively), with
the literal `Mars_barycenter`; every other name passes through unchanged. -/
theorem barycenter_subst_per_module (name : String) :
    (pyLower name ∈ BARYCENTER_FRAMES → utilsSubst name = name ++ "_barycenter") ∧
    (pyLower name ∉ BARYCENTER_FRAMES → utilsSubst name = name) ∧
    (pyLower name = "mars" →
      chgframeSubst name = "Mars_barycenter" ∧ heliostateSubst name = "Mars_barycenter") ∧
    (pyLower name ≠ "mars" → chgframeSubst name = name ∧ heliostateSubst name = name) := by
  refine ⟨fun h => ?_, fun h => ?_, fun h => ?_, fun h => ?_⟩ <;>
    simp [utilsSubst, chgframeSubst, heliostateSubst, h]

/-- Witness for the amended C3 at `Jupiter` and `mArS`. -/
theorem barycenter_subst_per_module_witness :
    utilsSubst "Jupiter" = "Jupiter" ++ "_barycenter" ∧
    chgframeSubst "Jupiter" = "Jupiter" ∧
    chgframeSubst "mArS" = "Mars_barycenter" :=
  ⟨(barycenter_subst_per_module "Jupiter").1 (by decide),
   ((barycenter_subst_per_module "Jupiter").2.2.2 (by decide)).1,
   ((barycenter_subst_per_module "mArS").2.2.1 (by decide)).1⟩

/-- C4: both `PlanetState` implementations query the toolkit's ephemeris
with observer `Sun`, frame `ECLIPJ2000` and aberration correction `None`,
for every planet name and epoch (float, or string converted through
`str2et`). -/
theorem planetState_always_sun_observer (S : SpiceKit) (planet : String) (epoch : Epoch) :
    PlanetStateUtils S planet epoch =
      S.spkezr (utilsSubst planet) (resolveEt S epoch) "ECLIPJ2000" "None" "Sun" ∧
    PlanetStateHelio S planet epoch =
      S.spkezr (heliostateSubst planet) (resolveEt S epoch) "ECLIPJ2000" "None" "Sun" :=
  ⟨rfl, rfl⟩

/-- C5: converting a state from `IAU_Earth` to a heliocentric frame
(`J2000` or `EclipJ2000`) and back at the same epoch returns the original
state, given that the two direction-cosine matrices are mutual inverses. -/
theorem chgFrame_roundTrip (S : SpiceKit) (st : State6) (e : Epoch) (F : String)
    (hF : F = "J2000" ∨ F = "EclipJ2000")
    (hinv : matMul (S.pxform F "IAU_Earth" (resolveEt S e))
              (S.pxform "IAU_Earth" F (resolveEt S e)) = idMat3) :
    (ChgFrame S st "IAU_Earth" F e).bind
      (fun st2 => ChgFrame S st2 F "IAU_Earth" e) = some st := by
  obtain ⟨r, v⟩ := st
  have hs : pyStartsWith "IAU_Earth" "IAU_" = true := by decide
  have hd : chgframeSubst (pyDrop "IAU_Earth" 4) = "Earth" := by decide
  rcases hF with rfl | rfl
  · have h1 : pyStartsWith "J2000" "IAU_" = false := by decide
    have h2 : pyEndsWith "J2000" "J2000" = true := by decide
    simp [ChgFrame, DCM, hs, hd, h1, h2, State6.add_r, State6.add_v]
    constructor <;> rw [mulVec_add, add_sub_cancel_right, mulVec_mulVec, hinv, mulVec_id]
  · have h1 : pyStartsWith "EclipJ2000" "IAU_" = false := by decide
    have h2 : pyEndsWith "EclipJ2000" "J2000" = true := by decide
    simp [ChgFrame, DCM, hs, hd, h1, h2, State6.add_r, State6.add_v]
    constructor <;> rw [mulVec_add, add_sub_cancel_right, mulVec_mulVec, hinv, mulVec_id]

/-- Witness for C5 with the identity DCM toolkit. -/
theorem chgFrame_roundTrip_witness :
    (("J2000" : String) = "J2000" ∨ ("J2000" : String) = "EclipJ2000") ∧
    matMul (sampleKit.pxform "J2000" "IAU_Earth" (resolveEt sampleKit (.inl 0)))
      (sampleKit.pxform "IAU_Earth" "J2000" (resolveEt sampleKit (.inl 0))) = idMat3 ∧
    (ChgFrame sampleKit sampleState "IAU_Earth" "J2000" (.inl 0)).bind
      (fun st2 => ChgFrame sampleKit st2 "J2000" "IAU_Earth" (.inl 0)) =
      some sampleState :=
  ⟨Or.inl rfl, matMul_id_id, chgFrame_roundTrip sampleKit sampleState (.inl 0)
    "J2000" (Or.inl rfl) matMul_id_id⟩

/-- C6: when the `--state` argument of `chgframe.py` parses (first and last
characters dropped, remainder split on commas into floats) to anything other
than six components, the script raises `ValueError('state vector must have
six components')` and no frame conversion is performed. -/
theorem chgframeMain_six_component_check (S : SpiceKit) (pf : String → ℚ)
    (stateArg toArg fromArg epochArg : String)
    (h : (chgframeParseState pf stateArg).length ≠ 6) :
    chgframeMain S pf stateArg toArg fromArg epochArg =
      .error "state vector must have six components" := by
  simp [chgframeMain, h]

/-- Witness for C6 on a three-component state argument. -/
theorem chgframeMain_six_component_check_witness :
    (chgframeParseState (fun _ => 0) "[1,2,3]").length ≠ 6 ∧
    chgframeMain sampleKit (fun _ => 0) "[1,2,3]" "EclipJ2000" "IAU_Earth"
      "2016-03-24T20:41:48" = .error "state vector must have six components" :=
  ⟨by decide, chgframeMain_six_component_check sampleKit (fun _ => 0)
    "[1,2,3]" "EclipJ2000" "IAU_Earth" "2016-03-24T20:41:48" (by decide)⟩

/-- C7: for a nonempty `--reso` argument, `horizon.py` raises
`ValueError('unknown unit ' + unit)` exactly when the last character is not
one of `d`, `m`, `s`; otherwise the step count is built from `int` of the
first character only, with the unit named by the last character. -/
theorem horizonReso_unit_validation (reso : String) (_h : reso ≠ "") :
    (pyLastChar reso ∉ (['d', 'm', 's'] : List Char) →
      horizonParseReso reso = .error (.valueErrorUnknownUnit (pyLastChar reso))) ∧
    (∀ u, horizonParseReso reso = .error (.valueErrorUnknownUnit u) →
      pyLastChar reso ∉ (['d', 'm', 's'] : List Char)) ∧
    (pyLastChar reso ∈ (['d', 'm', 's'] : List Char) →
      (pyFirstChar reso).isDigit = true →
      ∃ uname, resolutionUnits (pyLastChar reso) = some uname ∧
        horizonParseReso reso = .ok (uname, (pyFirstChar reso).toNat - '0'.toNat)) := by
  refine ⟨fun hm => ?_, fun u hu => ?_, fun hm hd => ?_⟩
  · have hr := (resolutionUnits_none_iff _).2 hm
    unfold horizonParseReso
    rw [hr]
  · cases hr : resolutionUnits (pyLastChar reso) with
    | none => exact (resolutionUnits_none_iff _).1 hr
    | some uname =>
      unfold horizonParseReso at hu
      rw [hr] at hu
      by_cases hd : (pyFirstChar reso).isDigit = true
      · simp [pyIntChar, hd] at hu
      · simp [pyIntChar, hd] at hu
  · have hm' : pyLastChar reso = 'd' ∨ pyLastChar reso = 'm' ∨ pyLastChar reso = 's' := by
      simpa using hm
    rcases hm' with h1 | h1 | h1
    · exact ⟨"days", by rw [h1]; rfl,
        by unfold horizonParseReso; rw [h1]; simp [resolutionUnits, pyIntChar, hd]⟩
    · exact ⟨"minutes", by rw [h1]; rfl,
        by unfold horizonParseReso; rw [h1]; simp [resolutionUnits, pyIntChar, hd]⟩
    · exact ⟨"seconds", by rw [h1]; rfl,
        by unfold horizonParseReso; rw [h1]; simp [resolutionUnits, pyIntChar, hd]⟩

/-- Witness for C7: `5x` is rejected with the `unknown unit` error, `3d`
parses to three days. -/
theorem horizonReso_unit_validation_witness :
    ("5x" : String) ≠ "" ∧ ("3d" : String) ≠ "" ∧
    horizonParseReso "5x" = .error (.valueErrorUnknownUnit 'x') ∧
    horizonParseReso "3d" = .ok ("days", 3) := by
  refine ⟨by decide, by decide, ?_, ?_⟩
  · have h := (horizonReso_unit_validation "5x" (by decide)).1 (by decide)
    simpa using h
  · obtain ⟨uname, h1, h2⟩ :=
      (horizonReso_unit_validation "3d" (by decide)).2.2 (by decide) (by decide)
    have hu : uname = "days" := by
      have hres : resolutionUnits (pyLastChar "3d") = some "days" := by decide
      rw [hres] at h1
      exact Option.some_inj.mp h1.symm
    rw [hu] at h2
    simpa using h2

/-- C8 (counterexample): with the valid resolution `3d` and year 2015, the
loop of `horizon.py` never reaches January 1 of the following year (365 is
not a multiple of 3), refuting `up to and including January 1 of the
following year` as stated. -/
theorem horizon_endpoint_not_reached :
    horizonParseReso "3d" = .ok ("days", 3) ∧
    0 < stepSeconds "days" 3 ∧
    horizonEndS 2015 ∉ horizonSteps (stepSeconds "days" 3) (horizonEndS 2015) := by
  refine ⟨by decide, by decide, fun hmem => ?_⟩
  have h1 : stepSeconds "days" 3 = 259200 := by decide
  have h2 : horizonEndS 2015 = 31536000 := by decide
  rw [h1, h2] at hmem
  obtain ⟨-, k, hk⟩ := (mem_horizonSteps (by norm_num) _).1 hmem
  omega

/-- C8 (amended): for every valid run with a positive step, exactly one CSV
row is written per time step; the steps are exactly the multiples of the
step length from January 1 of the requested year that do not exceed
January 1 of the following year (reaching it exactly when the step divides
the year); and each row is the comma-join of eight fields — Julian date,
timestamp, and the six Sun-relative state components — ended by a newline. -/
theorem horizon_rows_per_step (S : SpiceKit) (render : ℚ → String)
    (fmtDate : ℕ → String) (planet : String) (step endS : ℕ) (hs : 0 < step) :
    (horizonRows render fmtDate S planet step endS).length =
      (horizonSteps step endS).length ∧
    (∀ x, x ∈ horizonSteps step endS ↔ x ≤ endS ∧ ∃ k, x = k * step) ∧
    horizonRows render fmtDate S planet step endS =
      (horizonSteps step endS).map (fun t =>
        pyJoin "," (render (S.j2000 + S.str2et (fmtDate t) / S.spd) :: fmtDate t ::
          (stateList (PlanetStateUtils S planet (.inl (S.str2et (fmtDate t))))).map render)
        ++ "\n") := by
  refine ⟨List.length_map _ _, fun x => mem_horizonSteps hs x, ?_⟩
  unfold horizonRows
  exact List.map_congr_left fun t _ => horizonRow_join render fmtDate S planet t

/-- Witness for the amended C8 at daily resolution over 2015. -/
theorem horizon_rows_per_step_witness :
    0 < stepSeconds "days" 1 ∧
    ((horizonRows (fun _ => "0") (fun _ => "t") sampleKit "Earth"
        (stepSeconds "days" 1) (horizonEndS 2015)).length =
      (horizonSteps (stepSeconds "days" 1) (horizonEndS 2015)).length ∧
    (∀ x, x ∈ horizonSteps (stepSeconds "days" 1) (horizonEndS 2015) ↔
      x ≤ horizonEndS 2015 ∧ ∃ k, x = k * stepSeconds "days" 1) ∧
    horizonRows (fun _ => "0") (fun _ => "t") sampleKit "Earth"
        (stepSeconds "days" 1) (horizonEndS 2015) =
      (horizonSteps (stepSeconds "days" 1) (horizonEndS 2015)).map (fun t =>
        pyJoin "," ((fun (_ : ℚ) => "0")
            (sampleKit.j2000 + sampleKit.str2et ((fun (_ : ℕ) => "t") t) / sampleKit.spd)
          :: (fun (_ : ℕ) => "t") t ::
          (stateList (PlanetStateUtils sampleKit "Earth"
            (.inl (sampleKit.str2et ((fun (_ : ℕ) => "t") t))))).map
              (fun (_ : ℚ) => "0"))
        ++ "\n")) :=
  ⟨by decide, horizon_rows_per_step sampleKit (fun _ => "0") (fun _ => "t")
    "Earth" (stepSeconds "days" 1) (horizonEndS 2015) (by decide)⟩

/-- C9: when `fromFrame` neither starts with `IAU_` nor ends with `J2000`,
`ChgFrame` falls through both branches and returns no value (`None`). -/
theorem chgFrame_none_when_no_branch (S : SpiceKit) (state : State6)
    (fromFrame toFrame : String) (dt : Epoch)
    (h1 : pyStartsWith fromFrame "IAU_" = false)
    (h2 : pyEndsWith fromFrame "J2000" = false) :
    ChgFrame S state fromFrame toFrame dt = none := by
  simp [ChgFrame, DCM, h1, h2]

/-- Witness for C9 at a frame name matching neither convention. -/
theorem chgFrame_none_when_no_branch_witness :
    pyStartsWith "GSE" "IAU_" = false ∧
    pyEndsWith "GSE" "J2000" = false ∧
    ChgFrame sampleKit sampleState "GSE" "EclipJ2000" (.inl 0) = none :=
  ⟨by decide, by decide, chgFrame_none_when_no_branch sampleKit sampleState
    "GSE" "EclipJ2000" (.inl 0) (by decide) (by decide)⟩

/-- C10: the loaders of `chgframe.py` and `heliostate.py` never set
`__kernels_loaded__`, so a second call furnishes all three kernel files
again (each twice after two calls), while `utils._load_kernels_` — which
does set the flag — furnishes each exactly once.  This contradicts the
load-at-most-once claim and shows the missing flag assignment is a slip. -/
theorem kernels_furnished_every_call :
    (runLoads chgframeLoadKernels 2 false).count "de430.bsp" = 2 ∧
    (runLoads chgframeLoadKernels 2 false).count "naif0012.tls" = 2 ∧
    (runLoads chgframeLoadKernels 2 false).count "pck00010.tpc" = 2 ∧
    (runLoads utilsLoadKernels 2 false).count "de430.bsp" = 1 ∧
    (runLoads utilsLoadKernels 2 false).count "naif0012.tls" = 1 ∧
    (runLoads utilsLoadKernels 2 false).count "pck00010.tpc" = 1 := by
  decide

